import Mathlib

/-!
Shallow embedding of the collaborative snippet editor client (src/src/main.jsx)
together with a small model of the remote document store it talks to.

The client is a single component whose state lives in react-style state cells
(db, userId, snippetId, code, isSaving, status, isInitialized) plus the
process-global debounce timer handle window.saveTimer. The component is
modelled as a state machine driven by external events: completion of the
authentication handshake, the run of the subscription effect, editor change
events, expiry of the debounce timer, settlement of an awaited remote write,
snapshot deliveries, blur of the room input, and unmount.

Two points of the source are modelled with care, because they decide several
properties below:

1. The timer callback installed by handleSaveCode is a closure: it holds the
   content passed to handleSaveCode, and through the saveToFirestore function
   in scope at that call it holds the room id and user id current at schedule
   time. A later change of the room does not retarget an already scheduled
   save. The record Pending stores exactly these captured values.

2. The onSnapshot callback is registered by the subscription effect, whose
   dependency list is [db, userId, snippetId]. The callback therefore keeps
   reading the values of isSaving and code from the render in which the
   effect last ran; later updates of those two cells are invisible to it
   until the effect re-runs. The record SubEnv stores these captured values.
   The state setters (setCode, setIsSaving, setStatus, setSnippetId) are
   stable and always update the live state.
-/

namespace SnippetEditor

/-- A document stored remotely. The three named fields are the ones the app
writes; `extra` stands for any other fields already present on the document,
which a merge-write must leave untouched. -/
structure Doc where
  content : Option String
  lastEditedBy : Option String
  timestamp : Option Nat
  extra : List (String × String)
deriving DecidableEq

/-- One scheduled or in-flight save. The timer callback created at schedule
time closes over the content passed to handleSaveCode and, through the
saveToFirestore closure in scope at that call, over the room id and user id
current at schedule time; these captured values are recorded here. -/
structure Pending where
  content : String
  room : String
  user : String
deriving DecidableEq

/-- The environment captured by the onSnapshot callback. The subscription
effect re-runs only when the store handle, the user id or the room id change,
so the callback keeps reading the values of isSaving and code from the render
in which the effect last ran, not the values current when a notification
arrives. -/
structure SubEnv where
  room : String
  codeAtSub : String
  isSavingAtSub : Bool
  userAtSub : String
deriving DecidableEq

/-- A committed remote write, as observed by the store. -/
structure WriteEvent where
  path : List String
  content : String
  user : String
deriving DecidableEq

/-- The full state of one client together with the remote store. The fields
mirror the react state cells of the component; `pending` is the global
debounce timer handle window.saveTimer, `sub` the active onSnapshot
subscription, `inflight` the saves whose setDoc promise has not settled yet
(settled oldest first), `store` the remote key to document map, `clock` the
server timestamp counter, and `writeLog` the sequence of committed writes. -/
structure State where
  appId : String
  dbReady : Bool
  userId : Option String
  snippetId : String
  code : String
  isSaving : Bool
  status : String
  isInitialized : Bool
  pending : Option Pending
  sub : Option SubEnv
  inflight : List Pending
  store : List (List String × Doc)
  clock : Nat
  writeLog : List WriteEvent
deriving DecidableEq

/-- Source getSnippetDocRef, with the store handle argument dropped: the
deterministic document path for a room, built from the application namespace
appId. In the source appId is the module constant read from the host
configuration; here it is threaded through the state. -/
def getSnippetDocRef (appId snippetId : String) : List String :=
  ["artifacts", appId, "public", "data", "snippets", snippetId]

/-- A remote document with no fields at all. -/
def emptyDoc : Doc := ⟨none, none, none, []⟩

/-- Lookup of a document in the remote store. -/
def storeGet : List (List String × Doc) → List String → Option Doc
  | [], _ => none
  | (k, d) :: rest, key => if k = key then some d else storeGet rest key

/-- Merge-write of setDoc with merge set: the three written fields replace
their previous values, every other field of the stored document is kept. -/
def mergeWrite (store : List (List String × Doc)) (key : List String)
    (content user : String) (t : Nat) : List (List String × Doc) :=
  let old := (storeGet store key).getD emptyDoc
  (key, { content := some content, lastEditedBy := some user,
          timestamp := some t, extra := old.extra }) :: store

/-- One character of the room id character class, matching the
case-insensitive regex over a-z, 0-9 and hyphen used by handleRoomChange. -/
def isRoomChar (c : Char) : Bool :=
  ('a' ≤ c && c ≤ 'z') || ('A' ≤ c && c ≤ 'Z') || ('0' ≤ c && c ≤ '9') || c == '-'

/-- One whitespace character in the sense of the JavaScript trim, restricted
to the ASCII range. -/
def isJsSpace (c : Char) : Bool :=
  c == ' ' || c == '\t' || c == '\n' || c == '\r' || c == '\x0b' || c == '\x0c'

/-- The JavaScript String.prototype.trim call of handleRoomChange: leading
and trailing whitespace is removed. -/
def jsTrim (s : String) : String :=
  ⟨((s.data.dropWhile isJsSpace).reverse.dropWhile isJsSpace).reverse⟩

/-- Validation test of handleRoomChange: the trimmed id is non-empty (the
truthiness test on newId), shorter than 50 characters, and fully matched by
the anchored case-insensitive regex. -/
def roomIdValid (s : String) : Bool :=
  (!s.isEmpty) && decide (s.length < 50) && s.toList.all isRoomChar

/-- Source handleRoomChange: trim the candidate, accept it as the new room id
when valid, otherwise leave the room unchanged and report a validation
message. -/
def handleRoomChange (s : State) (candidate : String) : State :=
  let newId := jsTrim candidate
  if roomIdValid newId then { s with snippetId := newId }
  else { s with status := "Room ID must be alphanumeric/hyphenated and non-empty." }

/-- Synchronous first half of saveToFirestore, up to the await of setDoc:
raise the saving flag, report the saving status, and leave the write awaiting
its outcome together with its captured target room and user. -/
def saveToFirestoreBegin (s : State) (p : Pending) : State :=
  { s with isSaving := true,
           status := "Saving changes to Firestore...",
           inflight := s.inflight ++ [p] }

/-- Resumption of saveToFirestore once the oldest awaited setDoc settles. On
success the merge-write commits with a server-assigned timestamp and the
success status is shown; on failure only the error status is shown, nothing
is written, nothing is retried and the buffer is not rolled back; on both
outcomes the finally clause clears the saving flag. -/
def saveToFirestoreResolve (s : State) (ok : Bool) : State :=
  match s.inflight with
  | [] => s
  | p :: rest =>
    if ok then
      { s with inflight := rest,
               store := mergeWrite s.store (getSnippetDocRef s.appId p.room)
                          p.content p.user s.clock,
               clock := s.clock + 1,
               writeLog := s.writeLog ++
                 [⟨getSnippetDocRef s.appId p.room, p.content, p.user⟩],
               status := "Changes saved successfully to room: " ++ p.room,
               isSaving := false }
    else
      { s with inflight := rest,
               status := "Error: Failed to save changes.",
               isSaving := false }

/-- Source handleSaveCode with debounce left at true, as wired to the editor
onChange: when the store handle or the user id is missing the call returns at
once; otherwise the buffer is updated immediately and the single debounce
timer is replaced by one holding the new content together with the room and
user captured at this call. -/
def handleSaveCode (s : State) (newCode : String) : State :=
  match s.dbReady, s.userId with
  | true, some uid =>
      { s with code := newCode, pending := some ⟨newCode, s.snippetId, uid⟩ }
  | _, _ => s

/-- Truthiness of data.content: the field is present and is a non-empty
string. -/
def contentTruthy : Option String → Bool
  | none => false
  | some c => !c.isEmpty

/-- Branch of the onSnapshot callback for an existing document: the buffer is
overwritten only when the isSaving value captured by the callback at
subscription time is false and the notified content is truthy. -/
def onSnapshotExists (s : State) (env : SubEnv) (content : Option String) : State :=
  if !env.isSavingAtSub && contentTruthy content then
    { s with code := content.getD "",
             status := "Real-time update received in room: " ++ env.room }
  else s

/-- Branch of the onSnapshot callback for an absent document: the callback
calls handleSaveCode with the buffer content it captured at subscription time
and debounce set to false, which re-applies that content to the buffer and
starts an immediate save targeted at the room captured at subscription time;
the callback then reports the room as newly created while the write is still
in flight. The captured store handle and user id are always present because
the subscription effect returns early when either is missing. -/
def onSnapshotAbsent (s : State) (env : SubEnv) : State :=
  let s1 := saveToFirestoreBegin { s with code := env.codeAtSub }
    ⟨env.codeAtSub, env.room, env.userAtSub⟩
  { s1 with status := "New collaboration room created: " ++ env.room }

/-- Subscription effect: runs when the store handle, user id or room id
change, after the cleanup of the previous subscription has unsubscribed it;
it registers the onSnapshot callback, capturing the current room, buffer,
saving flag and user id in its closure. -/
def subscribeEffect (s : State) : State :=
  match s.dbReady, s.userId with
  | true, some uid =>
      { s with sub := some ⟨s.snippetId, s.code, s.isSaving, uid⟩,
               status := "Subscribing to room: " ++ s.snippetId }
  | _, _ => s

/-- External events driving one client: completion of the auth handshake, the
subscription effect running, editor changes, expiry of the debounce timer,
settlement of the oldest awaited write, snapshot deliveries to the active
subscription, blur of the room input, and unmount. -/
inductive Event where
  | authReady (uid : String)
  | subscribeRun
  | localEdit (newCode : String)
  | timerFire
  | saveSettle (ok : Bool)
  | remoteExists (content : Option String)
  | remoteAbsent
  | roomBlur (candidate : String)
  | unmount
deriving DecidableEq

/-- One step of the client. Auth completion stores the handle and user id and
marks the app initialized; timer expiry consumes the pending timer and begins
the save it captured; unmount runs only the listener cleanup, which
unsubscribes but does not clear the debounce timer. -/
def step (s : State) (e : Event) : State :=
  match e with
  | .authReady uid =>
      { s with dbReady := true, userId := some uid, isInitialized := true,
               status := "Authenticated as: " ++ uid.take 8 ++ "..." }
  | .subscribeRun => subscribeEffect s
  | .localEdit c => handleSaveCode s c
  | .timerFire =>
      match s.pending with
      | some p => saveToFirestoreBegin { s with pending := none } p
      | none => s
  | .saveSettle ok => saveToFirestoreResolve s ok
  | .remoteExists c =>
      match s.sub with
      | some env => onSnapshotExists s env c
      | none => s
  | .remoteAbsent =>
      match s.sub with
      | some env => onSnapshotAbsent s env
      | none => s
  | .roomBlur candidate => handleRoomChange s candidate
  | .unmount => { s with sub := none }

/-- Run a list of events from a state. -/
def run (s : State) (es : List Event) : State :=
  es.foldl step s

/-- The initial editor content of the source. -/
def defaultCode : String :=
  "// Start writing your collaborative code here!\n\nfunction helloWorld() \x7b\n  return \"Hello, Collaborator!\";\n\x7d"

/-- The state before initialization, with an empty remote store. -/
def initialState (appId : String) : State :=
  { appId := appId, dbReady := false, userId := none,
    snippetId := "welcome-snippet", code := defaultCode,
    isSaving := false, status := "Initializing...", isInitialized := false,
    pending := none, sub := none, inflight := [],
    store := [], clock := 0, writeLog := [] }

/-- A client just after the auth handshake completed for user u1. -/
def initializedState : State := step (initialState "demo-app") (.authReady "u1")

/-- A client after auth and after the subscription effect ran. -/
def subscribedState : State := run (initialState "demo-app") [.authReady "u1", .subscribeRun]

/-- Trace for the self-echo property: subscribe, edit, let the debounce timer
fire so a save is in flight, then receive a remote notification. -/
def c2Trace : List Event :=
  [.authReady "u1", .subscribeRun, .localEdit "X", .timerFire,
   .remoteExists (some "Y")]

/-- Trace for the room-creation property: subscribe, edit the buffer, then
receive an absent notification and let the creation write settle. -/
def c3Trace : List Event :=
  [.authReady "u1", .subscribeRun, .localEdit "B", .remoteAbsent,
   .saveSettle true]

/-- Trace for the cancellation property: subscribe, edit so the debounce
timer is pending, then switch the room and resubscribe. -/
def c7Trace : List Event :=
  [.authReady "u1", .subscribeRun, .localEdit "X", .roomBlur "other-room",
   .subscribeRun]

/-- The state after the room switch of c7Trace, before the resubscription. -/
def c7State : State := run (initialState "demo-app") (c7Trace.take 4)

/-- A client with one save awaiting settlement. -/
def c8State : State :=
  saveToFirestoreBegin (initialState "demo-app") ⟨"body", "room-a", "u1"⟩

theorem handleSaveCode_eq (s : State) (uid newCode : String)
    (hdb : s.dbReady = true) (huid : s.userId = some uid) :
    handleSaveCode s newCode
      = { s with code := newCode, pending := some ⟨newCode, s.snippetId, uid⟩ } := by
  unfold handleSaveCode
  rw [hdb, huid]

theorem run_localEdits (cs : List String) (c : String) : ∀ (s : State) (uid : String),
    s.dbReady = true → s.userId = some uid →
    run s ((cs ++ [c]).map Event.localEdit)
      = { s with code := c, pending := some ⟨c, s.snippetId, uid⟩ } := by
  induction cs with
  | nil =>
      intro s uid hdb huid
      show step s (.localEdit c) = _
      exact handleSaveCode_eq s uid c hdb huid
  | cons a as ih =>
      intro s uid hdb huid
      show run (handleSaveCode s a) ((as ++ [c]).map Event.localEdit) = _
      rw [handleSaveCode_eq s uid a hdb huid]
      exact ih _ uid hdb huid

/-- Claim C1: within one quiet period, every call to the debounced save path
replaces the single timer, and when the period expires exactly one remote
write is committed, carrying the content of the last edit; the earlier
payloads of the sequence are never written. -/
theorem coalescing_law (s : State) (uid c : String) (cs : List String)
    (hdb : s.dbReady = true) (huid : s.userId = some uid)
    (hin : s.inflight = []) :
    (run s ((cs ++ [c]).map Event.localEdit
        ++ [Event.timerFire, Event.saveSettle true])).writeLog
      = s.writeLog ++ [⟨getSnippetDocRef s.appId s.snippetId, c, uid⟩] := by
  have hmid : List.foldl step s ((cs ++ [c]).map Event.localEdit)
      = { s with code := c, pending := some ⟨c, s.snippetId, uid⟩ } :=
    run_localEdits cs c s uid hdb huid
  rw [run, List.foldl_append, hmid]
  simp [step, saveToFirestoreBegin, saveToFirestoreResolve, hin]

/-- Witness for coalescing_law at a concrete initialized client and the edit
sequence a, ab, abc. -/
theorem coalescing_law_witness :
    (run initializedState ((["a", "ab"] ++ ["abc"]).map Event.localEdit
        ++ [Event.timerFire, Event.saveSettle true])).writeLog
      = initializedState.writeLog
        ++ [⟨getSnippetDocRef "demo-app" "welcome-snippet", "abc", "u1"⟩] :=
  coalescing_law initializedState "u1" "abc" ["a", "ab"] rfl rfl rfl

/-- Claim C2 fails on the code: at the end of c2Trace a save is in flight
(isSaving is true) and a remote notification for different content has just
arrived, yet the buffer was overwritten with the notified content, because
the onSnapshot callback tests the isSaving value it captured when the
subscription effect ran instead of the value current at arrival time. -/
theorem selfEcho_overwrite_while_saving :
    (run (initialState "demo-app") c2Trace).isSaving = true
    ∧ (run (initialState "demo-app") c2Trace).code = "Y" := ⟨rfl, rfl⟩

/-- Claim C3 fails on the code: in c3Trace the buffer holds B when the absent
notification arrives, yet the immediate room-creation commit writes the
default text captured by the callback at subscription time and also resets
the live buffer to that captured text. -/
theorem roomCreation_commits_stale_buffer :
    (run (initialState "demo-app") (c3Trace.take 3)).code = "B"
    ∧ (run (initialState "demo-app") c3Trace).writeLog
        = [⟨getSnippetDocRef "demo-app" "welcome-snippet", defaultCode, "u1"⟩]
    ∧ (run (initialState "demo-app") c3Trace).code = defaultCode := ⟨rfl, rfl, rfl⟩

/-- Claim C4: every commit raises the saving flag strictly before the remote
write lands, clears it again on both outcomes, and on failure reports the
error status, writes nothing, retries nothing, keeps the scheduled timer
untouched and does not roll the buffer back. -/
theorem save_inflight_flag (s : State) (p : Pending) (ok : Bool)
    (hin : s.inflight = []) :
    (saveToFirestoreBegin s p).isSaving = true
    ∧ (saveToFirestoreBegin s p).writeLog = s.writeLog
    ∧ (saveToFirestoreResolve (saveToFirestoreBegin s p) ok).isSaving = false
    ∧ (saveToFirestoreResolve (saveToFirestoreBegin s p) true).writeLog
        = s.writeLog ++ [⟨getSnippetDocRef s.appId p.room, p.content, p.user⟩]
    ∧ (saveToFirestoreResolve (saveToFirestoreBegin s p) false).writeLog = s.writeLog
    ∧ (saveToFirestoreResolve (saveToFirestoreBegin s p) false).code = s.code
    ∧ (saveToFirestoreResolve (saveToFirestoreBegin s p) false).status
        = "Error: Failed to save changes."
    ∧ (saveToFirestoreResolve (saveToFirestoreBegin s p) false).inflight = []
    ∧ (saveToFirestoreResolve (saveToFirestoreBegin s p) false).pending = s.pending := by
  cases ok <;>
    simp [saveToFirestoreBegin, saveToFirestoreResolve, hin]

/-- Witness for save_inflight_flag at a concrete state and a failing
outcome. -/
theorem save_inflight_flag_witness :
    (saveToFirestoreBegin (initialState "demo-app") ⟨"body", "room-a", "u1"⟩).isSaving = true
    ∧ (saveToFirestoreBegin (initialState "demo-app") ⟨"body", "room-a", "u1"⟩).writeLog
        = (initialState "demo-app").writeLog
    ∧ (saveToFirestoreResolve
        (saveToFirestoreBegin (initialState "demo-app") ⟨"body", "room-a", "u1"⟩)
        false).isSaving = false
    ∧ (saveToFirestoreResolve
        (saveToFirestoreBegin (initialState "demo-app") ⟨"body", "room-a", "u1"⟩)
        true).writeLog
        = (initialState "demo-app").writeLog
          ++ [⟨getSnippetDocRef "demo-app" "room-a", "body", "u1"⟩]
    ∧ (saveToFirestoreResolve
        (saveToFirestoreBegin (initialState "demo-app") ⟨"body", "room-a", "u1"⟩)
        false).writeLog = (initialState "demo-app").writeLog
    ∧ (saveToFirestoreResolve
        (saveToFirestoreBegin (initialState "demo-app") ⟨"body", "room-a", "u1"⟩)
        false).code = (initialState "demo-app").code
    ∧ (saveToFirestoreResolve
        (saveToFirestoreBegin (initialState "demo-app") ⟨"body", "room-a", "u1"⟩)
        false).status = "Error: Failed to save changes."
    ∧ (saveToFirestoreResolve
        (saveToFirestoreBegin (initialState "demo-app") ⟨"body", "room-a", "u1"⟩)
        false).inflight = []
    ∧ (saveToFirestoreResolve
        (saveToFirestoreBegin (initialState "demo-app") ⟨"body", "room-a", "u1"⟩)
        false).pending = (initialState "demo-app").pending :=
  save_inflight_flag (initialState "demo-app") ⟨"body", "room-a", "u1"⟩ false rfl

/-- Claim C5: handleRoomChange accepts a candidate exactly when its trimmed
form is non-empty, shorter than 50 characters and matched by the
case-insensitive character class of letters, digits and hyphen; on acceptance
only the room id changes, to the trimmed candidate; on rejection only the
status changes, to the validation message, so no store call can result. -/
theorem room_validation (s : State) (candidate : String) :
    (roomIdValid (jsTrim candidate) = true →
      handleRoomChange s candidate = { s with snippetId := jsTrim candidate })
    ∧ (roomIdValid (jsTrim candidate) = false →
      handleRoomChange s candidate
        = { s with status := "Room ID must be alphanumeric/hyphenated and non-empty." })
    ∧ (roomIdValid (jsTrim candidate) = true ↔
      ((jsTrim candidate).isEmpty = false ∧ (jsTrim candidate).length < 50
        ∧ (jsTrim candidate).toList.all isRoomChar = true)) := by
  refine ⟨?_, ?_, ?_⟩
  · intro h
    simp [handleRoomChange, h]
  · intro h
    simp [handleRoomChange, h]
  · simp [roomIdValid, Bool.and_eq_true, decide_eq_true_iff, and_assoc]

/-- Witness for room_validation: an accepted candidate with surrounding
whitespace, and a rejected candidate with a path traversal. -/
theorem room_validation_witness :
    handleRoomChange (initialState "demo-app") "  my-room "
      = { initialState "demo-app" with snippetId := "my-room" }
    ∧ handleRoomChange (initialState "demo-app") "../etc"
      = { initialState "demo-app" with
          status := "Room ID must be alphanumeric/hyphenated and non-empty." } :=
  ⟨(room_validation (initialState "demo-app") "  my-room ").1 (by decide),
   (room_validation (initialState "demo-app") "../etc").2.1 (by decide)⟩

/-- Claim C6: every editor change routed through the debounced save path of
an initialized client updates the buffer immediately and hands exactly the
new content to the scheduler, as the replaced debounce timer. -/
theorem optimistic_local_echo (s : State) (uid newCode : String)
    (hdb : s.dbReady = true) (huid : s.userId = some uid) :
    handleSaveCode s newCode
      = { s with code := newCode, pending := some ⟨newCode, s.snippetId, uid⟩ } :=
  handleSaveCode_eq s uid newCode hdb huid

/-- Witness for optimistic_local_echo at a concrete initialized client. -/
theorem optimistic_local_echo_witness :
    handleSaveCode initializedState "abc"
      = { initializedState with
          code := "abc", pending := some ⟨"abc", "welcome-snippet", "u1"⟩ } :=
  optimistic_local_echo initializedState "u1" "abc" rfl rfl

/-- Claim C7 fails on the code: after the room switch of c7Trace the current
room has changed and a new subscription is active, yet the debounce timer
scheduled before the switch is still pending, because the effect cleanup only
unsubscribes the listener and never clears window.saveTimer. -/
theorem room_switch_keeps_timer :
    (run (initialState "demo-app") c7Trace).snippetId = "other-room"
    ∧ (run (initialState "demo-app") c7Trace).sub
        = some ⟨"other-room", "X", false, "u1"⟩
    ∧ (run (initialState "demo-app") c7Trace).pending
        = some ⟨"X", "welcome-snippet", "u1"⟩ := ⟨rfl, rfl, rfl⟩

/-- Claim C7 amended: switching the room or unmounting tears down the active
subscription but does not cancel an outstanding debounce timer; when that
timer later fires, the commit writes to the room captured at schedule time,
which differs from the path of any other current room. -/
theorem cancellation_amended (s : State) (p : Pending) (candidate : String)
    (hp : s.pending = some p) (hin : s.inflight = []) :
    (step s .unmount).sub = none
    ∧ (step s .unmount).pending = some p
    ∧ (step s (.roomBlur candidate)).pending = some p
    ∧ (run s [.timerFire, .saveSettle true]).writeLog
        = s.writeLog ++ [⟨getSnippetDocRef s.appId p.room, p.content, p.user⟩]
    ∧ (p.room ≠ s.snippetId →
        getSnippetDocRef s.appId p.room ≠ getSnippetDocRef s.appId s.snippetId) := by
  refine ⟨rfl, hp, ?_, ?_, ?_⟩
  · show (handleRoomChange s candidate).pending = some p
    simp only [handleRoomChange]
    split <;> exact hp
  · show (List.foldl step s [.timerFire, .saveSettle true]).writeLog = _
    simp only [List.foldl, step, hp]
    simp [saveToFirestoreBegin, saveToFirestoreResolve, hin]
  · intro hroom hcontra
    exact hroom (by simpa [getSnippetDocRef] using hcontra)

/-- Witness for cancellation_amended at the concrete state reached after the
room switch of c7Trace, where the pending save targets the old room. -/
theorem cancellation_amended_witness :
    (step c7State .unmount).sub = none
    ∧ (step c7State .unmount).pending = some ⟨"X", "welcome-snippet", "u1"⟩
    ∧ (step c7State (.roomBlur "zzz")).pending = some ⟨"X", "welcome-snippet", "u1"⟩
    ∧ (run c7State [.timerFire, .saveSettle true]).writeLog
        = c7State.writeLog
          ++ [⟨getSnippetDocRef "demo-app" "welcome-snippet", "X", "u1"⟩]
    ∧ getSnippetDocRef "demo-app" "welcome-snippet"
        ≠ getSnippetDocRef "demo-app" "other-room" := by
  have h := cancellation_amended c7State ⟨"X", "welcome-snippet", "u1"⟩ "zzz" rfl rfl
  exact ⟨h.1, h.2.1, h.2.2.1, h.2.2.2.1, h.2.2.2.2 (by decide)⟩

theorem storeGet_mergeWrite_self (st : List (List String × Doc))
    (k : List String) (c u : String) (t : Nat) :
    storeGet (mergeWrite st k c u t) k
      = some ⟨some c, some u, some t, ((storeGet st k).getD emptyDoc).extra⟩ := by
  simp [mergeWrite, storeGet]

theorem storeGet_mergeWrite_other (st : List (List String × Doc))
    (k q : List String) (c u : String) (t : Nat) (hq : q ≠ k) :
    storeGet (mergeWrite st k c u t) q = storeGet st q := by
  have h1 : storeGet (mergeWrite st k c u t) q
      = if k = q
        then some ⟨some c, some u, some t, ((storeGet st k).getD emptyDoc).extra⟩
        else storeGet st q := rfl
  rw [h1, if_neg fun hh => hq hh.symm]

/-- Claim C8: every commit targets the deterministic path built from the
application namespace and the room id; the written payload is exactly the
fields content, lastEditedBy and timestamp, the timestamp server-assigned,
merged so that every other field of the document is untouched; documents at
every other path are untouched. -/
theorem persisted_layout (s : State) (p : Pending) (rest : List Pending)
    (h : s.inflight = p :: rest) :
    getSnippetDocRef s.appId p.room
      = ["artifacts", s.appId, "public", "data", "snippets", p.room]
    ∧ storeGet (saveToFirestoreResolve s true).store (getSnippetDocRef s.appId p.room)
        = some ⟨some p.content, some p.user, some s.clock,
            ((storeGet s.store (getSnippetDocRef s.appId p.room)).getD emptyDoc).extra⟩
    ∧ ∀ q, q ≠ getSnippetDocRef s.appId p.room →
        storeGet (saveToFirestoreResolve s true).store q = storeGet s.store q := by
  have hres : (saveToFirestoreResolve s true).store
      = mergeWrite s.store (getSnippetDocRef s.appId p.room) p.content p.user s.clock := by
    simp [saveToFirestoreResolve, h]
  refine ⟨rfl, ?_, ?_⟩
  · rw [hres, storeGet_mergeWrite_self]
  · intro q hq
    rw [hres, storeGet_mergeWrite_other _ _ _ _ _ _ hq]

/-- Witness for persisted_layout at a concrete client with one save of body
to room-a awaiting settlement over an empty store. -/
theorem persisted_layout_witness :
    getSnippetDocRef "demo-app" "room-a"
      = ["artifacts", "demo-app", "public", "data", "snippets", "room-a"]
    ∧ storeGet (saveToFirestoreResolve c8State true).store
        (getSnippetDocRef "demo-app" "room-a")
        = some ⟨some "body", some "u1", some 0, []⟩ := by
  have h := persisted_layout c8State ⟨"body", "room-a", "u1"⟩ [] rfl
  exact ⟨h.1, h.2.1⟩

/-- Claim C9: a snapshot of an existing document whose content field is
missing or is the empty string leaves the whole client state, and in
particular the buffer, unchanged, whatever value of the saving flag the
callback captured. -/
theorem empty_remote_content_ignored (s : State) (env : SubEnv)
    (content : Option String) (hsub : s.sub = some env)
    (hc : content = none ∨ content = some "") :
    step s (.remoteExists content) = s := by
  have h : contentTruthy content = false := by
    rcases hc with h | h <;> subst h <;> rfl
  simp [step, hsub, onSnapshotExists, h]

/-- Witness for empty_remote_content_ignored at a subscribed client and an
empty notified content. -/
theorem empty_remote_content_ignored_witness :
    step subscribedState (.remoteExists (some "")) = subscribedState :=
  empty_remote_content_ignored subscribedState
    ⟨"welcome-snippet", defaultCode, false, "u1"⟩ (some "") rfl (Or.inr rfl)

/-- Claim C10: a call to the debounced save path made while the store handle
or the user id is still missing is a complete no-op: the whole client state
is unchanged, so no buffer update, no timer and no write. -/
theorem save_noop_before_init (s : State) (newCode : String)
    (h : s.dbReady = false ∨ s.userId = none) :
    step s (.localEdit newCode) = s := by
  show handleSaveCode s newCode = s
  unfold handleSaveCode
  rcases h with h | h
  · rw [h]
  · rw [h]
    cases hdb : s.dbReady <;> rfl

/-- Witness for save_noop_before_init at the uninitialized starting state. -/
theorem save_noop_before_init_witness :
    step (initialState "demo-app") (.localEdit "Z") = initialState "demo-app" :=
  save_noop_before_init (initialState "demo-app") "Z" (Or.inl rfl)

end SnippetEditor
